import Mathlib

/-!
Verification development for the MANTA flight-simulation core.

The source is TypeScript: `PhysicsEngine` (motion integrator), `RenderEngine`
(graphics pipeline) and `GameEngine` (orchestrator). We embed the state and the
operations shallowly: JavaScript numbers become `ℚ`; calls into transcendental
library functions (`Math.sin`, the sines/cosines inside gl-matrix
`quat.fromEuler`, the `1/sqrt(len)` inside `quat.normalize`, the `Math.tan`
inside the projection setup) become explicit oracle parameters constrained by
the defining properties of those functions (`sin² ≤ 1`, `sin² + cos² = 1`,
`r² · len = 1`), so every definition stays executable on concrete rational
inputs.
-/

namespace Manta

/-- `Vector3 {x,y,z}` from `src/types/GameTypes.ts`. -/
structure Vec3 where
  x : ℚ
  y : ℚ
  z : ℚ
deriving DecidableEq, Repr

/-- `Quaternion {x,y,z,w}` from `src/types/GameTypes.ts`. -/
structure Quat where
  x : ℚ
  y : ℚ
  z : ℚ
  w : ℚ
deriving DecidableEq, Repr

/-- `Transform {position, rotation, scale}` from `src/types/GameTypes.ts`. -/
structure Transform where
  position : Vec3
  rotation : Quat
  scale : Vec3
deriving DecidableEq, Repr

/-- `ControlInput` from `PhysicsEngine.ts`: all four fields are optional in the
source (`pitch?`, `yaw?`, `roll?`, `thrust?`); an absent or `undefined` field is
`none`. -/
structure ControlInput where
  pitch : Option ℚ
  yaw : Option ℚ
  roll : Option ℚ
  thrust : Option ℚ
deriving DecidableEq, Repr

/-- Propulsion subsystem record (`GameEngine.systemStates.propulsion`). -/
structure Propulsion where
  plasmaRate : ℚ
  coilTemp : ℚ
  antiGravity : ℚ
deriving DecidableEq, Repr

/-- Cloaking subsystem record (`GameEngine.systemStates.cloaking`). -/
structure Cloaking where
  active : Bool
  integrity : ℚ
  heat : ℚ
deriving DecidableEq, Repr

/-- Sensors subsystem record (`GameEngine.systemStates.sensors`). -/
structure Sensors where
  active : Bool
  range : ℚ
  quantum : Bool
deriving DecidableEq, Repr

/-- The three subsystem records held by `GameEngine.systemStates`. -/
structure SystemStates where
  propulsion : Propulsion
  cloaking : Cloaking
  sensors : Sensors
deriving DecidableEq, Repr

/-- The mutable state private to `PhysicsEngine`: `velocity`,
`angularVelocity` and `lastControlInput` (lines 12-14 of `PhysicsEngine.ts`). -/
structure PhysicsState where
  velocity : Vec3
  angularVelocity : Vec3
  lastControlInput : ControlInput
deriving DecidableEq, Repr

namespace GlMatrix

/-- Squared Euclidean norm of a quaternion, the `len` computed inside
gl-matrix `quat.normalize` before the square root. -/
def normSq (q : Quat) : ℚ :=
  q.x * q.x + q.y * q.y + q.z * q.z + q.w * q.w

/-- gl-matrix `quat.multiply(out, a, b)` (Hamilton product, component form as
in the library source). -/
def qmul (a b : Quat) : Quat :=
  { x := a.x * b.w + a.w * b.x + a.y * b.z - a.z * b.y
    y := a.y * b.w + a.w * b.y + a.z * b.x - a.x * b.z
    z := a.z * b.w + a.w * b.z + a.x * b.y - a.y * b.x
    w := a.w * b.w - a.x * b.x - a.y * b.y - a.z * b.z }

/-- gl-matrix `quat.fromEuler(out, ex, ey, ez)`, parameterized by the sines and
cosines of the three half-angles (`sx = sin(ex·π/360)`, `cx = cos(ex·π/360)`,
and likewise for y and z): the library computes exactly this polynomial of
those six values. -/
def fromEulerHalf (sx cx sy cy sz cz : ℚ) : Quat :=
  { x := sx * cy * cz - cx * sy * sz
    y := cx * sy * cz + sx * cy * sz
    z := cx * cy * sz - sx * sy * cz
    w := cx * cy * cz + sx * sy * sz }

/-- gl-matrix `quat.normalize(out, a)`, parameterized by the scale factor `r`
the library derives from the squared length (`r = 1/sqrt(len)` when `len > 0`,
`r = 0` when `len = 0`): the output is the input scaled componentwise by `r`. -/
def normalizeWith (q : Quat) (r : ℚ) : Quat :=
  { x := q.x * r, y := q.y * r, z := q.z * r, w := q.w * r }

/-- The property tying the oracle factor `r` of `normalizeWith` to the squared
length `n` it normalizes: `r` is the nonnegative inverse square root of a
positive `n`, and `0` when `n = 0`. -/
def IsInvSqrt (n r : ℚ) : Prop :=
  (0 < n → 0 ≤ r ∧ r * r * n = 1) ∧ (n = 0 → r = 0)

instance (n r : ℚ) : Decidable (IsInvSqrt n r) := by
  unfold IsInvSqrt; infer_instance

/-- gl-matrix `vec3.transformQuat(out, a, q)`: rotate vector `a` by quaternion
`q`, using the cross-product form from the library source
(`out = a + 2w·(qv × a) + 2·(qv × (qv × a))`). -/
def transformQuat (a : Vec3) (q : Quat) : Vec3 :=
  let uvx := q.y * a.z - q.z * a.y
  let uvy := q.z * a.x - q.x * a.z
  let uvz := q.x * a.y - q.y * a.x
  let uuvx := q.y * uvz - q.z * uvy
  let uuvy := q.z * uvx - q.x * uvz
  let uuvz := q.x * uvy - q.y * uvx
  let w2 := q.w * 2
  { x := a.x + uvx * w2 + uuvx * 2
    y := a.y + uvy * w2 + uuvy * 2
    z := a.z + uvz * w2 + uuvz * 2 }

theorem normSq_qmul (a b : Quat) : normSq (qmul a b) = normSq a * normSq b := by
  simp only [normSq, qmul]
  ring

theorem normSq_fromEulerHalf (sx cx sy cy sz cz : ℚ) :
    normSq (fromEulerHalf sx cx sy cy sz cz) =
      (sx * sx + cx * cx) * (sy * sy + cy * cy) * (sz * sz + cz * cz) := by
  simp only [normSq, fromEulerHalf]
  ring

theorem normSq_normalizeWith (q : Quat) (r : ℚ) :
    normSq (normalizeWith q r) = r * r * normSq q := by
  simp only [normSq, normalizeWith]
  ring

end GlMatrix

namespace PhysicsEngine

open GlMatrix

/-- `PLASMA_EFFICIENCY = 0.85` (`PhysicsEngine.ts` line 17). -/
def PLASMA_EFFICIENCY : ℚ := 85 / 100

/-- `GRAVITY_CONSTANT = 9.81` (`PhysicsEngine.ts` line 19). -/
def GRAVITY_CONSTANT : ℚ := 981 / 100

/-- The spread merge `{ ...last, ...input }` on `ControlInput`: a field present
in `input` overwrites, an absent field keeps the value from `last`. -/
def mergeInput (last input : ControlInput) : ControlInput :=
  { pitch := match input.pitch with | some p => some p | none => last.pitch
    yaw := match input.yaw with | some v => some v | none => last.yaw
    roll := match input.roll with | some r => some r | none => last.roll
    thrust := match input.thrust with | some t => some t | none => last.thrust }

/-- `PhysicsEngine.applyControlInput(input)` (lines 100-113): merge `input`
into `lastControlInput`, then add each present `pitch`/`yaw`/`roll` value onto
the matching axis of `angularVelocity`. -/
def applyControlInput (s : PhysicsState) (input : ControlInput) : PhysicsState :=
  let merged := mergeInput s.lastControlInput input
  let av := s.angularVelocity
  let av := match input.pitch with
    | some p => { av with x := av.x + p }
    | none => av
  let av := match input.yaw with
    | some v => { av with y := av.y + v }
    | none => av
  let av := match input.roll with
    | some r => { av with z := av.z + r }
    | none => av
  { s with lastControlInput := merged, angularVelocity := av }

/-- `PhysicsEngine.getForwardVector(transform)` (lines 115-125): rotate the
canonical forward vector `(0,0,-1)` by the transform's orientation quaternion. -/
def getForwardVector (transform : Transform) : Vec3 :=
  transformQuat { x := 0, y := 0, z := -1 } transform.rotation

/-- `PhysicsEngine.updatePropulsion(deltaTime, propulsion, transform)` (lines
62-86). `coilSin` is the oracle value of
`Math.sin(Date.now() * 0.001 * MAGNETIC_FLUX_CONSTANT)`; the source multiplies
it by `0.1` and adds `0.9` to get the coil resonance. The thrust branch runs
only when `lastControlInput.thrust` is truthy, i.e. present and nonzero. The
`heatGeneration` local is computed and unused, as in the source. -/
def updatePropulsion (coilSin : ℚ) (deltaTime : ℚ) (propulsion : Propulsion)
    (transform : Transform) (s : PhysicsState) : PhysicsState :=
  let plasmaEfficiency := propulsion.plasmaRate * PLASMA_EFFICIENCY
  let coilResonance := coilSin * (1 / 10) + 9 / 10
  let antiGravityForce := propulsion.antiGravity * coilResonance
  let gravitationalForce := -GRAVITY_CONSTANT * (1 - antiGravityForce)
  let v := { s.velocity with y := s.velocity.y + gravitationalForce * deltaTime }
  let v :=
    match s.lastControlInput.thrust with
    | some t =>
      if t = 0 then v
      else
        let thrustMagnitude := t * plasmaEfficiency * 50
        let forward := getForwardVector transform
        { x := v.x + forward.x * thrustMagnitude * deltaTime
          y := v.y + forward.y * thrustMagnitude * deltaTime
          z := v.z + forward.z * thrustMagnitude * deltaTime }
    | none => v
  let _heatGeneration := propulsion.plasmaRate * propulsion.coilTemp * deltaTime
  { s with velocity := v }

/-- `PhysicsEngine.updateCloakingPhysics(cloaking, transform)` (lines 88-98):
when cloaking is active it computes a mass-reduction factor and a power-drain
factor into locals and then does nothing with them — the physics state is
returned unchanged on both branches, exactly as in the source. -/
def updateCloakingPhysics (cloaking : Cloaking) (s : PhysicsState) : PhysicsState :=
  if cloaking.active then
    let _cloakingMassReduction := cloaking.integrity * (3 / 10)
    let _powerDrain := (1 / 10) * (1 - cloaking.integrity)
    s
  else s

/-- The oracle values consumed by one `update` call, standing for the
transcendental library calls the source makes: `coilSin` is
`Math.sin(Date.now() * 0.001 * 432.7)`; `sx..cz` are the sines and cosines of
the three half-angles inside `quat.fromEuler` applied to
`angularVelocity * deltaTime * 57.2958` degrees; `invLen` is the
`1/sqrt(len)` factor inside `quat.normalize` (or `0` on a zero quaternion). -/
structure StepOracle where
  coilSin : ℚ
  sx : ℚ
  cx : ℚ
  sy : ℚ
  cy : ℚ
  sz : ℚ
  cz : ℚ
  invLen : ℚ
deriving DecidableEq, Repr

/-- The facts the real library guarantees about a step's oracle values:
`coilSin` is a sine value, each half-angle sine/cosine pair satisfies the
Pythagorean identity, and `invLen` is the inverse square root of the squared
length of the quaternion `quat.normalize` receives (the current orientation
right-multiplied by the Euler delta). -/
def StepOracle.WF (o : StepOracle) (transform : Transform) : Prop :=
  o.coilSin * o.coilSin ≤ 1 ∧
  o.sx * o.sx + o.cx * o.cx = 1 ∧
  o.sy * o.sy + o.cy * o.cy = 1 ∧
  o.sz * o.sz + o.cz * o.cz = 1 ∧
  IsInvSqrt
    (normSq (qmul transform.rotation (fromEulerHalf o.sx o.cx o.sy o.cy o.sz o.cz)))
    o.invLen

instance (o : StepOracle) (transform : Transform) : Decidable (o.WF transform) := by
  unfold StepOracle.WF; infer_instance

/-- `PhysicsEngine.update(deltaTime, systemStates, transform)` (lines 21-60):
propulsion forces, the cloaking no-op, explicit-Euler position integration,
quaternion angular integration (right-multiply by the Euler delta, then
normalize), and finally the constant damping of linear (×0.98) and angular
(×0.95) velocity. The source mutates `transform` and `this` in place; here the
updated transform and physics state are returned as a pair. -/
def update (o : StepOracle) (deltaTime : ℚ) (systemStates : SystemStates)
    (transform : Transform) (s : PhysicsState) : Transform × PhysicsState :=
  let s := updatePropulsion o.coilSin deltaTime systemStates.propulsion transform s
  let s := updateCloakingPhysics systemStates.cloaking s
  let position :=
    { x := transform.position.x + s.velocity.x * deltaTime
      y := transform.position.y + s.velocity.y * deltaTime
      z := transform.position.z + s.velocity.z * deltaTime }
  let angularQuatStep := fromEulerHalf o.sx o.cx o.sy o.cy o.sz o.cz
  let rotationQuat := normalizeWith (qmul transform.rotation angularQuatStep) o.invLen
  let transform := { transform with position := position, rotation := rotationQuat }
  let velocity :=
    { x := s.velocity.x * (98 / 100)
      y := s.velocity.y * (98 / 100)
      z := s.velocity.z * (98 / 100) }
  let angularVelocity :=
    { x := s.angularVelocity.x * (95 / 100)
      y := s.angularVelocity.y * (95 / 100)
      z := s.angularVelocity.z * (95 / 100) }
  (transform, { s with velocity := velocity, angularVelocity := angularVelocity })

/-- The physics state of an `update` call just before the final damping step:
after `updatePropulsion` and `updateCloakingPhysics` have run. -/
def preDampState (o : StepOracle) (deltaTime : ℚ) (systemStates : SystemStates)
    (transform : Transform) (s : PhysicsState) : PhysicsState :=
  updateCloakingPhysics systemStates.cloaking
    (updatePropulsion o.coilSin deltaTime systemStates.propulsion transform s)

/-- Run a sequence of `update` calls; each list element carries the oracle
values, the `deltaTime` and the subsystem snapshot of one call. -/
def runUpdates : List (StepOracle × ℚ × SystemStates) → Transform × PhysicsState →
    Transform × PhysicsState
  | [], p => p
  | (o, dt, sys) :: rest, (transform, s) => runUpdates rest (update o dt sys transform s)

/-- Every oracle in the sequence is well formed for the transform reached at
its own step. -/
def OraclesWF : List (StepOracle × ℚ × SystemStates) → Transform → PhysicsState → Prop
  | [], _, _ => True
  | (o, dt, sys) :: rest, transform, s =>
    o.WF transform ∧
      OraclesWF rest (update o dt sys transform s).1 (update o dt sys transform s).2

/-- `PhysicsEngine.getVelocity()` (lines 127-129): a copy of the linear
velocity. -/
def getVelocity (s : PhysicsState) : Vec3 :=
  { x := s.velocity.x, y := s.velocity.y, z := s.velocity.z }

end PhysicsEngine

namespace RenderEngine

/-- WebGL blend factors that appear in `RenderEngine.render`: the default pair
`(ONE, ZERO)` of a fresh context plus the pair set for cloaking. -/
inductive BlendFactor where
  | one
  | zero
  | srcAlpha
  | oneMinusSrcAlpha
deriving DecidableEq, Repr

/-- The GL and render-engine state the claims observe: canvas size, viewport,
blend state, the stored projection and view matrices (`Float32Array(16)`
modelled as `Fin 16 → ℚ`), the shader program slot (`WebGLProgram | null`
modelled as presence), the uniform values `render` uploads, and a count of
issued draw calls. -/
structure RenderState where
  canvasWidth : ℚ
  canvasHeight : ℚ
  viewportW : ℚ
  viewportH : ℚ
  blendEnabled : Bool
  blendSrc : BlendFactor
  blendDst : BlendFactor
  shaderProgram : Bool
  projectionMatrix : Fin 16 → ℚ
  viewMatrix : Fin 16 → ℚ
  uCloakingActive : Bool
  uCloakingIntegrity : ℚ
  uPlasmaIntensity : ℚ
  uTime : ℚ
  drawCalls : Nat

/-- The perspective matrix written by `RenderEngine.updateProjectionMatrix`
(part_000 lines 216-232): `fill(0)` then entries 0, 5, 10, 11, 14. `f` is the
oracle value of `Math.tan(π·0.5 − 0.5·fov)` for the fixed 45° field of view;
near = 0.1, far = 1000, `rangeInv = 1/(near − far)`. -/
def perspectiveEntries (f aspect : ℚ) : Fin 16 → ℚ :=
  let near : ℚ := 1 / 10
  let far : ℚ := 1000
  let rangeInv := 1 / (near - far)
  fun i =>
    if i = 0 then f / aspect
    else if i = 5 then f
    else if i = 10 then (near + far) * rangeInv
    else if i = 11 then -1
    else if i = 14 then near * far * rangeInv * 2
    else 0

/-- `RenderEngine.updateProjectionMatrix()` (part_000 lines 216-232): recompute
the stored projection matrix from the aspect ratio of the GL context's canvas
(`gl.canvas.width / gl.canvas.height`). -/
def updateProjectionMatrix (f : ℚ) (st : RenderState) : RenderState :=
  { st with projectionMatrix := perspectiveEntries f (st.canvasWidth / st.canvasHeight) }

/-- `RenderEngine.updateViewport(width, height)` (part_000 lines 211-214): set
the GL viewport and recompute the projection matrix. -/
def updateViewport (f : ℚ) (width height : ℚ) (st : RenderState) : RenderState :=
  updateProjectionMatrix f { st with viewportW := width, viewportH := height }

/-- The simple camera view matrix `render` writes each frame: identity with
entry 14 set to −5 (part_000 lines 240-242). -/
def simpleViewMatrix : Fin 16 → ℚ := fun i =>
  if i = 0 then 1
  else if i = 5 then 1
  else if i = 10 then 1
  else if i = 15 then 1
  else if i = 14 then -5
  else 0

/-- `RenderEngine.render(deltaTime, craftTransform, systemStates)` (part_000
lines 234-281): early-return when the shader program is null; otherwise write
the view matrix, upload the uniforms (`now` is the oracle value of
`performance.now()`, scaled by 0.001 for `uTime`), then enable alpha blending
with `(SRC_ALPHA, ONE_MINUS_SRC_ALPHA)` when cloaking is active and disable
blending (leaving the blend-function registers untouched) otherwise, and issue
one draw call. -/
def render (now deltaTime : ℚ) (craftTransform : Transform) (systemStates : SystemStates)
    (st : RenderState) : RenderState :=
  if st.shaderProgram = false then st
  else
    let st :=
      { st with
        viewMatrix := simpleViewMatrix
        uTime := now * (1 / 1000)
        uCloakingActive := systemStates.cloaking.active
        uCloakingIntegrity := systemStates.cloaking.integrity
        uPlasmaIntensity := systemStates.propulsion.plasmaRate }
    let st :=
      if systemStates.cloaking.active then
        { st with
          blendEnabled := true
          blendSrc := BlendFactor.srcAlpha
          blendDst := BlendFactor.oneMinusSrcAlpha }
      else { st with blendEnabled := false }
    { st with drawCalls := st.drawCalls + 1 }

/-- `GameEngine.resizeCanvas()` (GameEngine.ts lines 101-119) specialized to a
display size of `width × height`: when the canvas size differs it stores the
new canvas size, sets the GL viewport, and forwards to
`RenderEngine.updateViewport`, which recomputes the projection matrix; when
the size is unchanged it does nothing. This is the only call path that reaches
`updateViewport` in the source. -/
def resizeCanvas (f : ℚ) (width height : ℚ) (st : RenderState) : RenderState :=
  if st.canvasWidth = width ∧ st.canvasHeight = height then st
  else
    updateViewport f width height { st with canvasWidth := width, canvasHeight := height }

end RenderEngine

namespace GameEngine

/-- `Mission` from `src/types/GameTypes.ts`. -/
structure Mission where
  id : String
  name : String
  type : String
  difficulty : ℚ
  description : String
  objectives : List String
  environment : String
  duration : ℚ
deriving DecidableEq, Repr

/-- The orchestrator state the claims observe: the craft transform, the
current mission (`Mission | null`), the three subsystem records, and the
physics engine's internal state. -/
structure GameEngineState where
  craftTransform : Transform
  currentMission : Option Mission
  systemStates : SystemStates
  physics : PhysicsState
deriving DecidableEq, Repr

/-- First entry of the mission table inside `GameEngine.getMissionById`. -/
def urbanRecon : Mission :=
  { id := "urban-recon-01"
    name := "Urban Reconnaissance Alpha"
    type := "atmospheric"
    difficulty := 1
    description := "Conduct stealth surveillance over metropolitan area."
    objectives := ["Maintain cloak integrity", "Scan designated targets",
      "Avoid radar detection"]
    environment := "urban-night"
    duration := 300 }

/-- Second entry of the mission table inside `GameEngine.getMissionById`. -/
def lunarSurvey : Mission :=
  { id := "lunar-survey-01"
    name := "Lunar Anomaly Survey"
    type := "deep-space"
    difficulty := 3
    description := "Investigate quantum signatures detected on lunar surface."
    objectives := ["Navigate to coordinates", "Deploy sensor probes",
      "Analyze quantum data"]
    environment := "lunar-surface"
    duration := 600 }

/-- The mission table inside `GameEngine.getMissionById` (lines 209-234). -/
def missions : List Mission := [urbanRecon, lunarSurvey]

/-- `GameEngine.getMissionById(id)` (lines 209-234):
`missions.find(m => m.id === id) || null`. -/
def getMissionById (id : String) : Option Mission :=
  missions.find? (fun m => m.id == id)

/-- `GameEngine.startMission(missionId)` (lines 142-158): first assign
`currentMission := getMissionById(missionId)` unconditionally; when the lookup
succeeded, load the environment and mission audio (external collaborators, no
core state) and reset the craft position to `(0,100,0)` and the rotation to
the identity quaternion. Nothing else is touched: in particular the physics
engine's velocity state and the subsystem records are not modified, and no
error is thrown (the function is total). -/
def startMission (missionId : String) (g : GameEngineState) : GameEngineState :=
  let g := { g with currentMission := getMissionById missionId }
  match g.currentMission with
  | some _ =>
    { g with
      craftTransform :=
        { g.craftTransform with
          position := { x := 0, y := 100, z := 0 }
          rotation := { x := 0, y := 0, z := 0, w := 1 } } }
  | none => g

/-- The initial craft transform of `GameEngine` (lines 20-24). -/
def initialTransform : Transform :=
  { position := { x := 0, y := 100, z := 0 }
    rotation := { x := 0, y := 0, z := 0, w := 1 }
    scale := { x := 1, y := 1, z := 1 } }

/-- The initial subsystem records of `GameEngine` (lines 27-31). -/
def initialSystemStates : SystemStates :=
  { propulsion := { plasmaRate := 1 / 2, coilTemp := 3 / 10, antiGravity := 7 / 10 }
    cloaking := { active := false, integrity := 1, heat := 0 }
    sensors := { active := true, range := 1000, quantum := false } }

/-- The initial physics state of `PhysicsEngine` (lines 12-14): zero
velocities, empty control input. -/
def initialPhysicsState : PhysicsState :=
  { velocity := { x := 0, y := 0, z := 0 }
    angularVelocity := { x := 0, y := 0, z := 0 }
    lastControlInput := { pitch := none, yaw := none, roll := none, thrust := none } }

end GameEngine

open GlMatrix PhysicsEngine

theorem updateCloakingPhysics_eq_self (cloaking : Cloaking) (s : PhysicsState) :
    updateCloakingPhysics cloaking s = s := by
  unfold updateCloakingPhysics
  split <;> rfl

/-- C3: `applyControlInput` merges only the fields present in its argument into
the last-known control input (absent fields keep their previous values), adds
(does not assign) each present pitch/yaw/roll value to the matching
angular-velocity axis, and leaves linear velocity alone; in particular
`applyControlInput {pitch := 0.1}` followed by `applyControlInput {yaw := 0.2}`
leaves the stored pitch at `0.1` and the first call's angular-velocity x
contribution intact. -/
theorem applyControlInput_sticky_merge (s : PhysicsState) (input : ControlInput) :
    ((applyControlInput s input).lastControlInput.pitch =
      match input.pitch with | some p => some p | none => s.lastControlInput.pitch) ∧
    ((applyControlInput s input).lastControlInput.yaw =
      match input.yaw with | some v => some v | none => s.lastControlInput.yaw) ∧
    ((applyControlInput s input).lastControlInput.roll =
      match input.roll with | some r => some r | none => s.lastControlInput.roll) ∧
    ((applyControlInput s input).lastControlInput.thrust =
      match input.thrust with | some t => some t | none => s.lastControlInput.thrust) ∧
    (applyControlInput s input).angularVelocity.x =
      s.angularVelocity.x + (input.pitch.getD 0) ∧
    (applyControlInput s input).angularVelocity.y =
      s.angularVelocity.y + (input.yaw.getD 0) ∧
    (applyControlInput s input).angularVelocity.z =
      s.angularVelocity.z + (input.roll.getD 0) ∧
    (applyControlInput s input).velocity = s.velocity ∧
    (applyControlInput
        (applyControlInput s
          { pitch := some (1 / 10), yaw := none, roll := none, thrust := none })
        { pitch := none, yaw := some (1 / 5), roll := none, thrust := none
          }).lastControlInput.pitch = some (1 / 10) ∧
    (applyControlInput
        (applyControlInput s
          { pitch := some (1 / 10), yaw := none, roll := none, thrust := none })
        { pitch := none, yaw := some (1 / 5), roll := none, thrust := none
          }).angularVelocity.x = s.angularVelocity.x + 1 / 10 := by
  obtain ⟨p, v, r, t⟩ := input
  cases p <;> cases v <;> cases r <;> cases t <;>
    simp [applyControlInput, mergeInput]

/-- C4: for every `deltaTime > 0` and every state, `update` multiplies every
component of linear velocity by exactly `0.98` and every component of angular
velocity by exactly `0.95`, once per call, as the final step after the
propulsion/cloaking force accumulation and the position integration (the
position increment uses the pre-damping velocity); the factors do not depend
on `deltaTime`. -/
theorem update_constant_damping (o : StepOracle) (deltaTime : ℚ)
    (systemStates : SystemStates) (transform : Transform) (s : PhysicsState)
    (hdt : 0 < deltaTime) :
    (update o deltaTime systemStates transform s).2.velocity.x =
      (preDampState o deltaTime systemStates transform s).velocity.x * (98 / 100) ∧
    (update o deltaTime systemStates transform s).2.velocity.y =
      (preDampState o deltaTime systemStates transform s).velocity.y * (98 / 100) ∧
    (update o deltaTime systemStates transform s).2.velocity.z =
      (preDampState o deltaTime systemStates transform s).velocity.z * (98 / 100) ∧
    (update o deltaTime systemStates transform s).2.angularVelocity.x =
      (preDampState o deltaTime systemStates transform s).angularVelocity.x * (95 / 100) ∧
    (update o deltaTime systemStates transform s).2.angularVelocity.y =
      (preDampState o deltaTime systemStates transform s).angularVelocity.y * (95 / 100) ∧
    (update o deltaTime systemStates transform s).2.angularVelocity.z =
      (preDampState o deltaTime systemStates transform s).angularVelocity.z * (95 / 100) ∧
    (update o deltaTime systemStates transform s).1.position.x =
      transform.position.x +
        (preDampState o deltaTime systemStates transform s).velocity.x * deltaTime := by
  refine ⟨rfl, rfl, rfl, rfl, rfl, rfl, rfl⟩

/-- C4 witness: the damping relation at a concrete call with `deltaTime = 1`. -/
theorem update_constant_damping_witness :
    (0 : ℚ) < 1 ∧
    ((update ⟨0, 0, 1, 0, 1, 0, 1, 1⟩ 1 GameEngine.initialSystemStates
        GameEngine.initialTransform GameEngine.initialPhysicsState).2.velocity.x =
      (preDampState ⟨0, 0, 1, 0, 1, 0, 1, 1⟩ 1 GameEngine.initialSystemStates
        GameEngine.initialTransform GameEngine.initialPhysicsState).velocity.x * (98 / 100) ∧
    (update ⟨0, 0, 1, 0, 1, 0, 1, 1⟩ 1 GameEngine.initialSystemStates
        GameEngine.initialTransform GameEngine.initialPhysicsState).2.velocity.y =
      (preDampState ⟨0, 0, 1, 0, 1, 0, 1, 1⟩ 1 GameEngine.initialSystemStates
        GameEngine.initialTransform GameEngine.initialPhysicsState).velocity.y * (98 / 100) ∧
    (update ⟨0, 0, 1, 0, 1, 0, 1, 1⟩ 1 GameEngine.initialSystemStates
        GameEngine.initialTransform GameEngine.initialPhysicsState).2.velocity.z =
      (preDampState ⟨0, 0, 1, 0, 1, 0, 1, 1⟩ 1 GameEngine.initialSystemStates
        GameEngine.initialTransform GameEngine.initialPhysicsState).velocity.z * (98 / 100) ∧
    (update ⟨0, 0, 1, 0, 1, 0, 1, 1⟩ 1 GameEngine.initialSystemStates
        GameEngine.initialTransform GameEngine.initialPhysicsState).2.angularVelocity.x =
      (preDampState ⟨0, 0, 1, 0, 1, 0, 1, 1⟩ 1 GameEngine.initialSystemStates
        GameEngine.initialTransform
          GameEngine.initialPhysicsState).angularVelocity.x * (95 / 100) ∧
    (update ⟨0, 0, 1, 0, 1, 0, 1, 1⟩ 1 GameEngine.initialSystemStates
        GameEngine.initialTransform GameEngine.initialPhysicsState).2.angularVelocity.y =
      (preDampState ⟨0, 0, 1, 0, 1, 0, 1, 1⟩ 1 GameEngine.initialSystemStates
        GameEngine.initialTransform
          GameEngine.initialPhysicsState).angularVelocity.y * (95 / 100) ∧
    (update ⟨0, 0, 1, 0, 1, 0, 1, 1⟩ 1 GameEngine.initialSystemStates
        GameEngine.initialTransform GameEngine.initialPhysicsState).2.angularVelocity.z =
      (preDampState ⟨0, 0, 1, 0, 1, 0, 1, 1⟩ 1 GameEngine.initialSystemStates
        GameEngine.initialTransform
          GameEngine.initialPhysicsState).angularVelocity.z * (95 / 100) ∧
    (update ⟨0, 0, 1, 0, 1, 0, 1, 1⟩ 1 GameEngine.initialSystemStates
        GameEngine.initialTransform GameEngine.initialPhysicsState).1.position.x =
      GameEngine.initialTransform.position.x +
        (preDampState ⟨0, 0, 1, 0, 1, 0, 1, 1⟩ 1 GameEngine.initialSystemStates
          GameEngine.initialTransform GameEngine.initialPhysicsState).velocity.x * 1) :=
  ⟨by norm_num,
    update_constant_damping ⟨0, 0, 1, 0, 1, 0, 1, 1⟩ 1 GameEngine.initialSystemStates
      GameEngine.initialTransform GameEngine.initialPhysicsState (by norm_num)⟩

/-- C6: `update` is insensitive to the cloaking record — for any two cloaking
states and otherwise identical inputs and internal state it returns identical
transform and physics state, because `updateCloakingPhysics` computes its
mass-reduction and power-drain locals and never feeds them back. -/
theorem update_cloaking_noninterference (o : StepOracle) (deltaTime : ℚ)
    (propulsion : Propulsion) (cl1 cl2 : Cloaking) (sensors : Sensors)
    (transform : Transform) (s : PhysicsState) :
    update o deltaTime { propulsion := propulsion, cloaking := cl1, sensors := sensors }
        transform s =
      update o deltaTime { propulsion := propulsion, cloaking := cl2, sensors := sensors }
        transform s := by
  simp only [update, updateCloakingPhysics_eq_self]

theorem update_fst_rotation (o : StepOracle) (deltaTime : ℚ)
    (systemStates : SystemStates) (transform : Transform) (s : PhysicsState) :
    (update o deltaTime systemStates transform s).1.rotation =
      normalizeWith (qmul transform.rotation (fromEulerHalf o.sx o.cx o.sy o.cy o.sz o.cz))
        o.invLen := rfl

theorem update_rotation_unit (o : StepOracle) (deltaTime : ℚ)
    (systemStates : SystemStates) (transform : Transform) (s : PhysicsState)
    (hwf : o.WF transform) (hq : normSq transform.rotation = 1) :
    normSq (update o deltaTime systemStates transform s).1.rotation = 1 := by
  obtain ⟨-, hx, hy, hz, hinv⟩ := hwf
  have hdq : normSq (fromEulerHalf o.sx o.cx o.sy o.cy o.sz o.cz) = 1 := by
    rw [normSq_fromEulerHalf, hx, hy, hz]
    norm_num
  have hprod :
      normSq (qmul transform.rotation (fromEulerHalf o.sx o.cx o.sy o.cy o.sz o.cz)) = 1 := by
    rw [normSq_qmul, hq, hdq]
    norm_num
  have hr := (hinv.1 (by rw [hprod]; norm_num)).2
  rw [update_fst_rotation, normSq_normalizeWith, hprod] at *
  rw [hprod] at hr
  linarith

/-- C5: starting from a unit orientation quaternion, after any sequence of
`update` calls whose oracle values satisfy the guarantees of the real library
functions (`StepOracle.WF` at each step), the orientation quaternion's squared
norm is exactly 1 — in exact arithmetic the right-multiplied delta is unit and
the renormalization is exact, so the norm is 1, in particular within the
spec's 1e-4 tolerance of 1.0, with no unbounded drift. Because the statement
holds for every such sequence, it holds after every intermediate call of any
longer run. -/
theorem runUpdates_rotation_unit (steps : List (StepOracle × ℚ × SystemStates))
    (transform : Transform) (s : PhysicsState)
    (hwf : OraclesWF steps transform s) (hq : normSq transform.rotation = 1) :
    normSq (runUpdates steps (transform, s)).1.rotation = 1 := by
  induction steps generalizing transform s with
  | nil => exact hq
  | cons step rest ih =>
    obtain ⟨o, dt, sys⟩ := step
    obtain ⟨h1, h2⟩ := hwf
    exact ih _ _ h2 (update_rotation_unit o dt sys transform s h1 hq)

/-- C5 witness: a concrete one-call sequence from the spawn transform, with
oracle values for a zero rotation step (`sin = 0`, `cos = 1`, `invLen = 1`). -/
theorem runUpdates_rotation_unit_witness :
    OraclesWF [(⟨0, 0, 1, 0, 1, 0, 1, 1⟩, 1, GameEngine.initialSystemStates)]
        GameEngine.initialTransform GameEngine.initialPhysicsState ∧
    normSq GameEngine.initialTransform.rotation = 1 ∧
    normSq (runUpdates [(⟨0, 0, 1, 0, 1, 0, 1, 1⟩, 1, GameEngine.initialSystemStates)]
        (GameEngine.initialTransform, GameEngine.initialPhysicsState)).1.rotation = 1 := by
  have hwf : OraclesWF [(⟨0, 0, 1, 0, 1, 0, 1, 1⟩, 1, GameEngine.initialSystemStates)]
      GameEngine.initialTransform GameEngine.initialPhysicsState := by
    refine ⟨?_, trivial⟩
    simp [StepOracle.WF, IsInvSqrt, normSq, qmul, fromEulerHalf, GameEngine.initialTransform]
  exact ⟨hwf, by norm_num [normSq, GameEngine.initialTransform],
    runUpdates_rotation_unit _ GameEngine.initialTransform GameEngine.initialPhysicsState
      hwf (by norm_num [normSq, GameEngine.initialTransform])⟩

/-- C2: starting from rest with last control input `thrust = 1`, propulsion
`plasmaRate = 1` and `antiGravity = 1`, and spawn (identity) orientation, one
propulsion step with `deltaTime = 1` — the velocity an `update` call holds
before its damping step — leaves the x velocity untouched, adds exactly
`1·1·0.85·50·1 = 42.5` of speed along the craft's forward direction `(0,0,-1)`
(so `v.z = -42.5`), and the vertical velocity change from gravity is
near zero: the coil resonance confines the effective anti-gravity to
`[0.8, 1.0]`, so `|v.y| ≤ 0.2·9.81 = 1.962`. `coilSin` is the oracle value of
the `Math.sin` call, constrained only by `coilSin² ≤ 1`. -/
theorem updatePropulsion_hover_thrust (coilSin : ℚ) (propulsion : Propulsion)
    (transform : Transform) (s : PhysicsState)
    (hsin : coilSin * coilSin ≤ 1)
    (hrate : propulsion.plasmaRate = 1) (hag : propulsion.antiGravity = 1)
    (hv : s.velocity = ⟨0, 0, 0⟩) (ht : s.lastControlInput.thrust = some 1)
    (hq : transform.rotation = ⟨0, 0, 0, 1⟩) :
    (updatePropulsion coilSin 1 propulsion transform s).velocity.x = 0 ∧
    (updatePropulsion coilSin 1 propulsion transform s).velocity.z = -(85 / 2) ∧
    |(updatePropulsion coilSin 1 propulsion transform s).velocity.y| ≤ 981 / 500 := by
  have hfwd : getForwardVector transform = ⟨0, 0, -1⟩ := by
    rw [getForwardVector, hq]
    simp [transformQuat]
  simp only [updatePropulsion, ht, hv, hrate, hag, hfwd]
  norm_num [PLASMA_EFFICIENCY, GRAVITY_CONSTANT]
  rw [abs_le]
  constructor <;> nlinarith [sq_nonneg (coilSin + 1), sq_nonneg (coilSin - 1)]

/-- C2 witness: the concrete hover-and-thrust step with `coilSin = 0`. -/
theorem updatePropulsion_hover_thrust_witness :
    ((0 : ℚ) * 0 ≤ 1 ∧
      ({ plasmaRate := 1, coilTemp := 3 / 10, antiGravity := 1 } :
        Propulsion).plasmaRate = 1 ∧
      ({ plasmaRate := 1, coilTemp := 3 / 10, antiGravity := 1 } :
        Propulsion).antiGravity = 1) ∧
    (updatePropulsion 0 1 { plasmaRate := 1, coilTemp := 3 / 10, antiGravity := 1 }
        GameEngine.initialTransform
        { velocity := ⟨0, 0, 0⟩, angularVelocity := ⟨0, 0, 0⟩
          lastControlInput :=
            { pitch := none, yaw := none, roll := none, thrust := some 1 }
          }).velocity.x = 0 ∧
    (updatePropulsion 0 1 { plasmaRate := 1, coilTemp := 3 / 10, antiGravity := 1 }
        GameEngine.initialTransform
        { velocity := ⟨0, 0, 0⟩, angularVelocity := ⟨0, 0, 0⟩
          lastControlInput :=
            { pitch := none, yaw := none, roll := none, thrust := some 1 }
          }).velocity.z = -(85 / 2) ∧
    |(updatePropulsion 0 1 { plasmaRate := 1, coilTemp := 3 / 10, antiGravity := 1 }
        GameEngine.initialTransform
        { velocity := ⟨0, 0, 0⟩, angularVelocity := ⟨0, 0, 0⟩
          lastControlInput :=
            { pitch := none, yaw := none, roll := none, thrust := some 1 }
          }).velocity.y| ≤ 981 / 500 := by
  have h := updatePropulsion_hover_thrust 0
    { plasmaRate := 1, coilTemp := 3 / 10, antiGravity := 1 }
    GameEngine.initialTransform
    { velocity := ⟨0, 0, 0⟩, angularVelocity := ⟨0, 0, 0⟩
      lastControlInput := { pitch := none, yaw := none, roll := none, thrust := some 1 } }
    (by norm_num) rfl rfl rfl rfl rfl
  exact ⟨⟨by norm_num, rfl, rfl⟩, h.1, h.2.1, h.2.2⟩

/-- C1 counterexample: `startMission` with the known id `urban-recon-01` does
not zero the integrator's velocity state — from a state with linear velocity
`(1,2,3)` and angular velocity `(4,5,6)`, both survive the call unchanged
(there is no velocity reset anywhere in `startMission` or `PhysicsEngine`). -/
theorem startMission_keeps_nonzero_velocity :
    (GameEngine.startMission "urban-recon-01"
      { craftTransform := GameEngine.initialTransform
        currentMission := none
        systemStates := GameEngine.initialSystemStates
        physics :=
          { velocity := ⟨1, 2, 3⟩, angularVelocity := ⟨4, 5, 6⟩
            lastControlInput :=
              { pitch := none, yaw := none, roll := none, thrust := none } }
        }).physics.velocity = ⟨1, 2, 3⟩ ∧
    ((⟨1, 2, 3⟩ : Vec3) ≠ ⟨0, 0, 0⟩) := by
  constructor
  · simp [GameEngine.startMission, GameEngine.getMissionById, GameEngine.missions,
      GameEngine.urbanRecon, GameEngine.lunarSurvey]
  · simp [Vec3.mk.injEq]

/-- C1 (amended): for every prior state, `startMission` with an id that
resolves to a known mission sets the craft transform's position to `(0,100,0)`
and its orientation quaternion to the identity `(0,0,0,1)`, but leaves the
integrator's linear and angular velocity state (the whole physics state)
unchanged — the source contains no velocity reset. -/
theorem startMission_known_resets_pose (g : GameEngine.GameEngineState)
    (missionId : String) (m : GameEngine.Mission)
    (h : GameEngine.getMissionById missionId = some m) :
    (GameEngine.startMission missionId g).craftTransform.position = ⟨0, 100, 0⟩ ∧
    (GameEngine.startMission missionId g).craftTransform.rotation = ⟨0, 0, 0, 1⟩ ∧
    (GameEngine.startMission missionId g).physics = g.physics := by
  simp only [GameEngine.startMission, h]
  exact ⟨trivial, trivial, trivial⟩

/-- C1 witness: the amended claim at the known id `urban-recon-01`, starting
from a state with nonzero velocity. -/
theorem startMission_known_resets_pose_witness :
    GameEngine.getMissionById "urban-recon-01" = some GameEngine.urbanRecon ∧
    ((GameEngine.startMission "urban-recon-01"
        { craftTransform := GameEngine.initialTransform
          currentMission := none
          systemStates := GameEngine.initialSystemStates
          physics :=
            { velocity := ⟨1, 2, 3⟩, angularVelocity := ⟨4, 5, 6⟩
              lastControlInput :=
                { pitch := none, yaw := none, roll := none, thrust := none } }
          }).craftTransform.position = ⟨0, 100, 0⟩ ∧
      (GameEngine.startMission "urban-recon-01"
        { craftTransform := GameEngine.initialTransform
          currentMission := none
          systemStates := GameEngine.initialSystemStates
          physics :=
            { velocity := ⟨1, 2, 3⟩, angularVelocity := ⟨4, 5, 6⟩
              lastControlInput :=
                { pitch := none, yaw := none, roll := none, thrust := none } }
          }).craftTransform.rotation = ⟨0, 0, 0, 1⟩ ∧
      (GameEngine.startMission "urban-recon-01"
        { craftTransform := GameEngine.initialTransform
          currentMission := none
          systemStates := GameEngine.initialSystemStates
          physics :=
            { velocity := ⟨1, 2, 3⟩, angularVelocity := ⟨4, 5, 6⟩
              lastControlInput :=
                { pitch := none, yaw := none, roll := none, thrust := none } }
          }).physics =
        { velocity := ⟨1, 2, 3⟩, angularVelocity := ⟨4, 5, 6⟩
          lastControlInput :=
            { pitch := none, yaw := none, roll := none, thrust := none } }) := by
  have h : GameEngine.getMissionById "urban-recon-01" = some GameEngine.urbanRecon := by
    simp [GameEngine.getMissionById, GameEngine.missions, GameEngine.urbanRecon]
  exact ⟨h, startMission_known_resets_pose _ "urban-recon-01" GameEngine.urbanRecon h⟩

/-- C8 counterexample: `startMission` with an unknown id is not a no-op — it
assigns the failed lookup's `null` to `currentMission` first, so a previously
active mission is cleared. -/
theorem startMission_unknown_clears_mission :
    (GameEngine.startMission "no-such-mission"
      { craftTransform := GameEngine.initialTransform
        currentMission := some GameEngine.urbanRecon
        systemStates := GameEngine.initialSystemStates
        physics := GameEngine.initialPhysicsState }).currentMission = none ∧
    some GameEngine.urbanRecon ≠ (none : Option GameEngine.Mission) := by
  constructor
  · simp [GameEngine.startMission, GameEngine.getMissionById, GameEngine.missions,
      GameEngine.urbanRecon, GameEngine.lunarSurvey]
  · simp

/-- C8 (amended): for every prior state, `startMission` with an id that
matches no known mission leaves the craft transform, the physics state and the
subsystem records unchanged and throws no error (the function is total), but
it is not a full no-op: it assigns `null` to the current-mission field,
clearing any previously active mission. -/
theorem startMission_unknown_preserves_core (g : GameEngine.GameEngineState)
    (missionId : String) (h : GameEngine.getMissionById missionId = none) :
    (GameEngine.startMission missionId g).craftTransform = g.craftTransform ∧
    (GameEngine.startMission missionId g).physics = g.physics ∧
    (GameEngine.startMission missionId g).systemStates = g.systemStates ∧
    (GameEngine.startMission missionId g).currentMission = none := by
  simp only [GameEngine.startMission, h]
  exact ⟨trivial, trivial, trivial, trivial⟩

/-- C8 witness: the amended claim at the unknown id `no-such-mission`, from a
state with an active mission. -/
theorem startMission_unknown_preserves_core_witness :
    GameEngine.getMissionById "no-such-mission" = none ∧
    ((GameEngine.startMission "no-such-mission"
        { craftTransform := GameEngine.initialTransform
          currentMission := some GameEngine.urbanRecon
          systemStates := GameEngine.initialSystemStates
          physics := GameEngine.initialPhysicsState }).craftTransform =
        GameEngine.initialTransform ∧
      (GameEngine.startMission "no-such-mission"
        { craftTransform := GameEngine.initialTransform
          currentMission := some GameEngine.urbanRecon
          systemStates := GameEngine.initialSystemStates
          physics := GameEngine.initialPhysicsState }).physics =
        GameEngine.initialPhysicsState ∧
      (GameEngine.startMission "no-such-mission"
        { craftTransform := GameEngine.initialTransform
          currentMission := some GameEngine.urbanRecon
          systemStates := GameEngine.initialSystemStates
          physics := GameEngine.initialPhysicsState }).systemStates =
        GameEngine.initialSystemStates ∧
      (GameEngine.startMission "no-such-mission"
        { craftTransform := GameEngine.initialTransform
          currentMission := some GameEngine.urbanRecon
          systemStates := GameEngine.initialSystemStates
          physics := GameEngine.initialPhysicsState }).currentMission = none) := by
  have h : GameEngine.getMissionById "no-such-mission" = none := by
    simp [GameEngine.getMissionById, GameEngine.missions, GameEngine.urbanRecon,
      GameEngine.lunarSurvey]
  exact ⟨h, startMission_unknown_preserves_core _ "no-such-mission" h⟩

/-- C10: for every prior state, `startMission` with a known id leaves the
craft transform's scale component and all three subsystem records unchanged —
only position and rotation are written. -/
theorem startMission_known_frame_effect (g : GameEngine.GameEngineState)
    (missionId : String) (m : GameEngine.Mission)
    (h : GameEngine.getMissionById missionId = some m) :
    (GameEngine.startMission missionId g).craftTransform.scale =
      g.craftTransform.scale ∧
    (GameEngine.startMission missionId g).systemStates = g.systemStates := by
  simp only [GameEngine.startMission, h]
  exact ⟨trivial, trivial⟩

/-- C10 witness: the frame condition at the known id `lunar-survey-01`. -/
theorem startMission_known_frame_effect_witness :
    GameEngine.getMissionById "lunar-survey-01" = some GameEngine.lunarSurvey ∧
    ((GameEngine.startMission "lunar-survey-01"
        { craftTransform := GameEngine.initialTransform
          currentMission := none
          systemStates := GameEngine.initialSystemStates
          physics := GameEngine.initialPhysicsState }).craftTransform.scale =
        GameEngine.initialTransform.scale ∧
      (GameEngine.startMission "lunar-survey-01"
        { craftTransform := GameEngine.initialTransform
          currentMission := none
          systemStates := GameEngine.initialSystemStates
          physics := GameEngine.initialPhysicsState }).systemStates =
        GameEngine.initialSystemStates) := by
  have h : GameEngine.getMissionById "lunar-survey-01" = some GameEngine.lunarSurvey := by
    simp [GameEngine.getMissionById, GameEngine.missions, GameEngine.urbanRecon,
      GameEngine.lunarSurvey]
  exact ⟨h, startMission_known_frame_effect _ "lunar-survey-01" GameEngine.lunarSurvey h⟩

/-- C7: on an initialized pipeline (shader program present), `render` leaves
alpha blending enabled exactly when the cloaking subsystem's `active` flag is
true, with the source-alpha / one-minus-source-alpha blend function; when
cloaking is inactive it disables blending. -/
theorem render_blend_iff_cloaking (now deltaTime : ℚ) (craftTransform : Transform)
    (systemStates : SystemStates) (st : RenderEngine.RenderState)
    (h : st.shaderProgram = true) :
    ((RenderEngine.render now deltaTime craftTransform systemStates st).blendEnabled =
      systemStates.cloaking.active) ∧
    (systemStates.cloaking.active = true →
      (RenderEngine.render now deltaTime craftTransform systemStates st).blendSrc =
        RenderEngine.BlendFactor.srcAlpha ∧
      (RenderEngine.render now deltaTime craftTransform systemStates st).blendDst =
        RenderEngine.BlendFactor.oneMinusSrcAlpha) := by
  cases hc : systemStates.cloaking.active <;>
    simp [RenderEngine.render, h, hc]

/-- A concrete initialized render state for witnesses. -/
def sampleRenderState : RenderEngine.RenderState :=
  { canvasWidth := 800
    canvasHeight := 600
    viewportW := 800
    viewportH := 600
    blendEnabled := false
    blendSrc := RenderEngine.BlendFactor.one
    blendDst := RenderEngine.BlendFactor.zero
    shaderProgram := true
    projectionMatrix := fun _ => 0
    viewMatrix := fun _ => 0
    uCloakingActive := false
    uCloakingIntegrity := 1
    uPlasmaIntensity := 1 / 2
    uTime := 0
    drawCalls := 0 }

/-- C7 witness: a concrete render call with cloaking inactive. -/
theorem render_blend_iff_cloaking_witness :
    sampleRenderState.shaderProgram = true ∧
    (((RenderEngine.render 0 1 GameEngine.initialTransform
        GameEngine.initialSystemStates sampleRenderState).blendEnabled =
      GameEngine.initialSystemStates.cloaking.active) ∧
    (GameEngine.initialSystemStates.cloaking.active = true →
      (RenderEngine.render 0 1 GameEngine.initialTransform
        GameEngine.initialSystemStates sampleRenderState).blendSrc =
        RenderEngine.BlendFactor.srcAlpha ∧
      (RenderEngine.render 0 1 GameEngine.initialTransform
        GameEngine.initialSystemStates sampleRenderState).blendDst =
        RenderEngine.BlendFactor.oneMinusSrcAlpha)) :=
  ⟨rfl, render_blend_iff_cloaking 0 1 GameEngine.initialTransform
    GameEngine.initialSystemStates sampleRenderState rfl⟩

theorem resizeCanvas_canvasWidth (f width height : ℚ) (st : RenderEngine.RenderState) :
    (RenderEngine.resizeCanvas f width height st).canvasWidth = width := by
  unfold RenderEngine.resizeCanvas RenderEngine.updateViewport
    RenderEngine.updateProjectionMatrix
  split
  · next h => exact h.1
  · rfl

theorem resizeCanvas_canvasHeight (f width height : ℚ) (st : RenderEngine.RenderState) :
    (RenderEngine.resizeCanvas f width height st).canvasHeight = height := by
  unfold RenderEngine.resizeCanvas RenderEngine.updateViewport
    RenderEngine.updateProjectionMatrix
  split
  · next h => exact h.2
  · rfl

theorem render_preserves_canvas (now deltaTime : ℚ) (craftTransform : Transform)
    (systemStates : SystemStates) (st : RenderEngine.RenderState) :
    (RenderEngine.render now deltaTime craftTransform systemStates st).canvasWidth =
      st.canvasWidth ∧
    (RenderEngine.render now deltaTime craftTransform systemStates st).canvasHeight =
      st.canvasHeight := by
  unfold RenderEngine.render
  split
  · exact ⟨rfl, rfl⟩
  · split <;> exact ⟨rfl, rfl⟩

theorem resizeCanvas_projection_of_ne (f width height : ℚ)
    (st : RenderEngine.RenderState)
    (h : ¬(st.canvasWidth = width ∧ st.canvasHeight = height)) :
    (RenderEngine.resizeCanvas f width height st).projectionMatrix =
      RenderEngine.perspectiveEntries f (width / height) := by
  unfold RenderEngine.resizeCanvas RenderEngine.updateViewport
    RenderEngine.updateProjectionMatrix
  split
  · next hc => exact absurd hc h
  · rfl

/-- C9: after `resize(800,600)` followed by `resize(1920,1080)`, with a
`render` call in between, the stored projection matrix is the perspective
matrix for the last call's aspect ratio `1920/1080` — each size change
recomputes the projection matrix from the new dimensions, and `render` never
touches it. `f` is the oracle value of the fixed `Math.tan(π/2 − fov/2)`
focal factor. -/
theorem resize_projection_reflects_last_call (f now deltaTime : ℚ)
    (craftTransform : Transform) (systemStates : SystemStates)
    (st : RenderEngine.RenderState) :
    (RenderEngine.resizeCanvas f 1920 1080
      (RenderEngine.render now deltaTime craftTransform systemStates
        (RenderEngine.resizeCanvas f 800 600 st))).projectionMatrix =
      RenderEngine.perspectiveEntries f (1920 / 1080) := by
  apply resizeCanvas_projection_of_ne
  rintro ⟨hw, -⟩
  rw [(render_preserves_canvas now deltaTime craftTransform systemStates _).1,
    resizeCanvas_canvasWidth] at hw
  norm_num at hw

end Manta
